import Mathlib

/-!
Verification of the `pydantic-explain` core against its specification.

The development shallowly embeds the repository's Python modules:
`_explain.py` (the normalizer and the location/path formatter),
`_types.py` (`ErrorDetail`, `to_dict`, `FormatOptions`),
`_format.py` (the plain-text renderer and repr truncation),
`_rich.py` (the styled renderer, modelled as a list of styled spans),
`_filter.py` (filter / group / count over normalized records).

Python's dynamically typed values are modelled by the scalar universe
`PyValue` (null, booleans, integers, strings), which covers every value the
specification's claims mention.  Python's `str.join` is embedded as `pyJoin`,
and Python's slice `r[:k]` (with possibly negative `k`) as `pySliceTo`.
All functions are total Lean functions, reflecting that the Python source
performs no raising operation on well-formed input.
-/

/-- A Python scalar value: `None`, a bool, an int, or a string. -/
inductive PyValue where
  | none
  | bool (b : Bool)
  | int (n : Int)
  | str (s : String)
deriving DecidableEq, Repr

/-- Python `repr` for the scalar universe: `None`, `True`/`False`, decimal
integers, and single-quoted strings (strings without quote or escape
characters, which is the fragment the claims exercise). -/
def pyRepr : PyValue → String
  | .none => "None"
  | .bool true => "True"
  | .bool false => "False"
  | .int n => toString n
  | .str s => "\x27" ++ s ++ "\x27"

/-- Python `sep.join(xs)`: empty string on the empty list, otherwise the
first element followed by `sep ++ x` for each later element. -/
def pyJoin (sep : String) : List String → String
  | [] => ""
  | x :: rest => rest.foldl (fun acc y => acc ++ sep ++ y) x

/-- Python slice `s[:stop]` for an `int` stop: a nonnegative stop takes that
many characters from the front; a negative stop drops that many characters
from the end (clamping at the empty string). -/
def pySliceTo (s : String) (stop : Int) : String :=
  if 0 ≤ stop then ⟨s.data.take stop.toNat⟩
  else ⟨s.data.take (s.data.length - (-stop).toNat)⟩

/-- A location segment as it reaches `_format_loc`: a Python `str` or `int`.
The wildcard marker is the string `"__all__"`. -/
inductive LocSeg where
  | str (s : String)
  | int (n : Int)
deriving DecidableEq, Repr

/-- The loop body of `_format_loc` (src/pydantic_explain/_explain.py):
`parts` is the accumulator list built so far; an `int` segment appends
`"[<n>]"`, the string `"__all__"` appends `"[*]"`, any other string appends
`"." ++ s` when `parts` is nonempty and the bare `s` otherwise. -/
def formatLocAux (parts : List String) : List LocSeg → List String
  | [] => parts
  | seg :: rest =>
      let piece : String :=
        match seg with
        | .int n => "[" ++ toString n ++ "]"
        | .str s =>
            if s = "__all__" then "[*]"
            else if parts ≠ [] then "." ++ s
            else s
      formatLocAux (parts ++ [piece]) rest

/-- Function `_format_loc` from src/pydantic_explain/_explain.py: `"<root>"` on the
empty location, otherwise the concatenation of the accumulated pieces. -/
def format_loc (loc : List LocSeg) : String :=
  if loc = [] then "<root>" else pyJoin "" (formatLocAux [] loc)

/-- The token `_format_loc` emits for one segment, parameterized by whether
the accumulator is still empty (`first`): used to characterize
`formatLocAux` independently of the accumulator. -/
def locToken (first : Bool) : LocSeg → String
  | .int n => "[" ++ toString n ++ "]"
  | .str s => if s = "__all__" then "[*]" else if first then s else "." ++ s

/-- The full token list `_format_loc` builds: one token per segment, the
`first` flag holding only for the head position. -/
def locTokensAux (first : Bool) : List LocSeg → List String
  | [] => []
  | seg :: rest => locToken first seg :: locTokensAux false rest

/-- A location segment in the specification's vocabulary: a field name, a
non-negative integer index, or the wildcard marker. -/
inductive Seg where
  | name (s : String)
  | index (n : Nat)
  | wildcard
deriving DecidableEq, Repr

/-- The Python value a specification-level segment stands for: names and the
wildcard marker are strings (the marker is `"__all__"`), indices are ints. -/
def segToLoc : Seg → LocSeg
  | .name s => .str s
  | .index n => .int (n : Int)
  | .wildcard => .str "__all__"

/-- Modelled from the spec's Path Formatter contract: the token one segment
contributes — `"[i]"` for an integer index, `"[*]"` for the wildcard, and
for a name the bare name when it is the first emitted token and `"."`
followed by the name otherwise. -/
def claimToken (first : Bool) : Seg → String
  | .index n => "[" ++ toString n ++ "]"
  | .wildcard => "[*]"
  | .name s => if first then s else "." ++ s

/-- Modelled from the spec's Path Formatter contract: left-to-right
concatenation of the segment tokens. -/
def claimRenderAux : Bool → List Seg → String
  | _, [] => ""
  | first, seg :: rest => claimToken first seg ++ claimRenderAux false rest

/-- Modelled from the spec's Path Formatter contract: `"<root>"` for the
empty sequence, otherwise the left-to-right concatenation of tokens. -/
def claimFormat (segs : List Seg) : String :=
  if segs = [] then "<root>" else claimRenderAux true segs

/-- Proof helper: the tail part of a separated join, `sep ++ y` for each
element. -/
def joinSep (sep : String) : List String → String
  | [] => ""
  | y :: t => sep ++ y ++ joinSep sep t

/-- Structure `ErrorDetail` from src/pydantic_explain/_types.py: one parsed validation
error.  `context` is a Python dict modelled as an insertion-ordered
association list. -/
structure ErrorDetail where
  path : String
  message : String
  error_type : String
  input_value : PyValue
  context : List (String × PyValue)
  url : String
deriving DecidableEq, Repr

/-- A value in the JSON-friendly dict produced by `ErrorDetail.to_dict`:
either a scalar or the context mapping. -/
inductive DictVal where
  | v (x : PyValue)
  | d (m : List (String × PyValue))
deriving DecidableEq, Repr

/-- Method `ErrorDetail.to_dict` from src/pydantic_explain/_types.py: always emits
`path`, `message`, `error_type`; emits `input_value` when it `is not None`,
`context` when the dict is truthy (nonempty) and `url` when the string is
truthy (nonempty).  The Python dict is modelled as the insertion-ordered
association list of its entries. -/
def ErrorDetail.to_dict (detail : ErrorDetail) : List (String × DictVal) :=
  [("path", .v (.str detail.path)),
   ("message", .v (.str detail.message)),
   ("error_type", .v (.str detail.error_type))]
  ++ (if detail.input_value ≠ PyValue.none then [("input_value", DictVal.v detail.input_value)] else [])
  ++ (if detail.context ≠ [] then [("context", DictVal.d detail.context)] else [])
  ++ (if detail.url ≠ "" then [("url", DictVal.v (.str detail.url))] else [])

/-- Structure `FormatOptions` from src/pydantic_explain/_types.py.  `input_max_length`
is a Python int, hence `Int`. -/
structure FormatOptions where
  show_input : Bool := true
  show_url : Bool := false
  show_error_type : Bool := false
  input_max_length : Int := 80
deriving DecidableEq, Repr

/-- One raw record of `ValidationError.errors()`: the dict with keys `loc`,
`msg`, `type` always present, and `input`, `ctx`, `url` possibly absent
(`Option.none` models key absence; `some PyValue.none` a present null). -/
structure RawError where
  loc : List LocSeg
  msg : String
  type : String
  input : Option PyValue
  ctx : Option (List (String × PyValue))
  url : Option String
deriving DecidableEq, Repr

/-- The raw validation failure: its `title` and its list of raw records. -/
structure ValidationError where
  title : String
  errors : List RawError
deriving DecidableEq, Repr

/-- The body of the comprehension in `explain`
(src/pydantic_explain/_explain.py): one `ErrorDetail` per raw record, with
`err.get(key, default)` embedded as `Option.getD`. -/
def normalizeOne (err : RawError) : ErrorDetail :=
  { path := format_loc err.loc
    message := err.msg
    error_type := err.type
    input_value := err.input.getD PyValue.none
    context := err.ctx.getD []
    url := err.url.getD "" }

/-- Function `explain` from src/pydantic_explain/_explain.py: the 1:1 map of
`normalizeOne` over the raw records, in order. -/
def explain (error : ValidationError) : List ErrorDetail :=
  error.errors.map normalizeOne

/-- Logic of `_truncate_repr` on an already-computed representation string
(src/pydantic_explain/_format.py): unchanged when within `maxLength`,
otherwise the Python slice `r[: maxLength - 3]` followed by `"..."`. -/
def truncateStr (r : String) (maxLength : Int) : String :=
  if (r.data.length : Int) ≤ maxLength then r
  else pySliceTo r (maxLength - 3) ++ "..."

/-- Function `_truncate_repr` from src/pydantic_explain/_format.py applied to a
value: truncation of its `repr`. -/
def truncate_repr (value : PyValue) (maxLength : Int) : String :=
  truncateStr (pyRepr value) maxLength

/-- The `lines` list built by `format_error_detail`
(src/pydantic_explain/_format.py): path line, message line (with the
error-type tag when `show_error_type`), the `Got:` line when `show_input`
(the literal `(missing)` when `error_type == "missing"`), and the `See:`
line when `show_url` and the url is truthy. -/
def detailLines (detail : ErrorDetail) (opts : FormatOptions) : List String :=
  let message :=
    if opts.show_error_type then detail.message ++ " [" ++ detail.error_type ++ "]"
    else detail.message
  ["  " ++ detail.path, "    " ++ message]
  ++ (if opts.show_input then
        [if detail.error_type = "missing" then "    Got: (missing)"
         else "    Got: " ++ truncate_repr detail.input_value opts.input_max_length]
      else [])
  ++ (if opts.show_url ∧ detail.url ≠ "" then ["    See: " ++ detail.url] else [])

/-- Function `format_error_detail` from src/pydantic_explain/_format.py: its `lines`
joined by newlines. -/
def format_error_detail (detail : ErrorDetail) (opts : FormatOptions) : String :=
  pyJoin "\n" (detailLines detail opts)

/-- Function `format_errors` from src/pydantic_explain/_format.py: the header line,
then for each detail a blank line and the detail's block, all joined by
newlines.  The loop appending `""` and the block is the `foldl`. -/
def format_errors (error : ValidationError) (opts : FormatOptions) : String :=
  let details := explain error
  let count := details.length
  let plural := if count = 1 then "error" else "errors"
  let lines := ["Validation failed for " ++ error.title ++ " with " ++ toString count ++ " " ++ plural]
  let lines := details.foldl (fun acc detail => acc ++ ["", format_error_detail detail opts]) lines
  pyJoin "\n" lines

/-- A styled line as printed by the rich renderer: the list of
`(text, style)` spans of one `Text` object (an empty list is a bare
`con.print()` blank line). -/
def StyledLine := List (String × String)

/-- The plain text of a styled line: its span texts concatenated, styling
stripped. -/
def stripStyles (line : StyledLine) : String :=
  line.foldl (fun acc span => acc ++ span.1) ""

/-- The styled lines printed for one detail inside the loop of
`format_errors_rich` (src/pydantic_explain/_rich.py): the leading blank
`con.print()`, the path in `bold cyan`, the message (with a dim
`[error_type]` span when `show_error_type`), the `Got:` line when
`show_input` with the value span in yellow, and the `See:` line when
`show_url` and the url is truthy. -/
def richDetailLines (detail : ErrorDetail) (opts : FormatOptions) : List StyledLine :=
  [([] : StyledLine),
   [("  " ++ detail.path, "bold cyan")],
   (if opts.show_error_type then
      [("    " ++ detail.message ++ " ", ""), ("[" ++ detail.error_type ++ "]", "dim")]
    else [("    " ++ detail.message, "")])]
  ++ (if opts.show_input then
        [if detail.error_type = "missing" then
           [("    Got: ", ""), ("(missing)", "yellow")]
         else
           [("    Got: ", ""),
            (truncate_repr detail.input_value opts.input_max_length, "yellow")]]
      else [])
  ++ (if opts.show_url ∧ detail.url ≠ "" then
        [[("    See: ", ""), (detail.url, "blue underline")]]
      else [])

/-- Function `format_errors_rich` from src/pydantic_explain/_rich.py, modelled as the
sequence of styled lines it prints to the console: the two-span header
(`Validation failed` in bold red), then the per-detail styled lines. -/
def format_errors_rich (error : ValidationError) (opts : FormatOptions) : List StyledLine :=
  let details := explain error
  let count := details.length
  let plural := if count = 1 then "error" else "errors"
  let header : StyledLine :=
    [("Validation failed", "bold red"),
     (" for " ++ error.title ++ " with " ++ toString count ++ " " ++ plural, "")]
  header :: (details.map (fun detail => richDetailLines detail opts)).flatten

/-- The compiled form of a caller-supplied `path_pattern`: Python's `re`
engine is an external collaborator, abstracted by its try-a-match-at-an-
offset capability (`matchAt s i` decides whether the pattern matches within
`s` starting at character offset `i`). -/
structure CompiledPattern where
  matchAt : String → Nat → Bool

/-- Semantics of `re.search`: for a compiled pattern: the pattern is found
anywhere within `s` — a match starting at some offset `0 .. s.length`
(unanchored; not a full match). -/
def regexSearch (p : CompiledPattern) (s : String) : Bool :=
  (List.range (s.data.length + 1)).any (p.matchAt s)

/-- Function `filter_errors` from src/pydantic_explain/_filter.py: starting from the
whole sequence, keep records with the exact `error_type` when one is
supplied, then keep records whose path the compiled pattern's search hits
when one is supplied. -/
def filter_errors (errors : List ErrorDetail) (errorType : Option String)
    (pathPattern : Option CompiledPattern) : List ErrorDetail :=
  let result := errors
  let result :=
    match errorType with
    | some t => result.filter (fun e => e.error_type = t)
    | none => result
  let result :=
    match pathPattern with
    | some compiled => result.filter (fun e => regexSearch compiled e.path)
    | none => result
  result

/-- The top-level path prefix used by grouping and counting:
`re.split(r"[.\x5b]", path, maxsplit=1)[0]`, i.e. the characters of `path`
before the first `.` or `[` (the whole path when neither occurs). -/
def pathStem (path : String) : String :=
  ⟨path.data.takeWhile (fun c => ¬(c = '.' ∨ c = '['))⟩

/-- The loop body of `group_errors`:
`groups.setdefault(prefix, []).append(error)` on an insertion-ordered dict
— append the record to its prefix's list when the key exists, otherwise add
the key at the end with a one-element list. -/
def groupStep (groups : List (String × List ErrorDetail)) (e : ErrorDetail) :
    List (String × List ErrorDetail) :=
  let stem := pathStem e.path
  if groups.any (fun kv => kv.1 = stem) then
    groups.map (fun kv => if kv.1 = stem then (kv.1, kv.2 ++ [e]) else kv)
  else groups ++ [(stem, [e])]

/-- Function `group_errors` from src/pydantic_explain/_filter.py: an
insertion-ordered mapping (association list) from top-level path prefix to
the records sharing it, each appended in input order. -/
def group_errors (errors : List ErrorDetail) : List (String × List ErrorDetail) :=
  errors.foldl groupStep []

/-- The loop body of `count_errors`: `prefix_counter[prefix] += 1` on an
insertion-ordered `Counter` — increment when the key exists, otherwise add
the key at the end with count 1. -/
def countStep (counts : List (String × Nat)) (e : ErrorDetail) :
    List (String × Nat) :=
  let stem := pathStem e.path
  if counts.any (fun kv => kv.1 = stem) then
    counts.map (fun kv => if kv.1 = stem then (kv.1, kv.2 + 1) else kv)
  else counts ++ [(stem, 1)]

/-- Function `count_errors` from src/pydantic_explain/_filter.py: an
insertion-ordered mapping from top-level path prefix to the number of
records sharing it (`Counter` increments, then `dict(...)`). -/
def count_errors (errors : List ErrorDetail) : List (String × Nat) :=
  errors.foldl countStep []

/-- Modelled from the spec's Filter contract: the `error_type` criterion —
an absent criterion imposes no constraint, a supplied one requires an exact
match. -/
def typeOk (errorType : Option String) (e : ErrorDetail) : Bool :=
  match errorType with
  | some t => e.error_type = t
  | none => true

/-- Modelled from the spec's Filter contract: the `path_pattern` criterion —
an absent criterion imposes no constraint, a supplied one requires the
pattern to be found anywhere within the path. -/
def pathOk (pathPattern : Option CompiledPattern) (e : ErrorDetail) : Bool :=
  match pathPattern with
  | some compiled => regexSearch compiled e.path
  | none => true

/-- Modelled from the spec's Text Renderer contract: the header line,
`"Validation failed for <subject> with <N> <error|errors>"`, singular iff
`N = 1`. -/
def specHeader (error : ValidationError) : String :=
  "Validation failed for " ++ error.title ++ " with "
  ++ toString (explain error).length ++ " "
  ++ (if (explain error).length = 1 then "error" else "errors")

/-- Modelled from the spec's Text Renderer contract: one per-record block —
path indented two spaces; message indented four with `" [<error_type>]"`
appended iff `show_error_type`; if `show_input` a `"Got: "` line showing
the literal `"(missing)"` iff the error type is `"missing"` and the
possibly-truncated representation otherwise; if `show_url` and the url is
nonempty, a `"See: <url>"` line. -/
def specBlock (detail : ErrorDetail) (opts : FormatOptions) : List String :=
  ["  " ++ detail.path,
   "    " ++ detail.message
     ++ (if opts.show_error_type then " [" ++ detail.error_type ++ "]" else "")]
  ++ (if opts.show_input then
        ["    Got: " ++ (if detail.error_type = "missing" then "(missing)"
          else truncate_repr detail.input_value opts.input_max_length)]
      else [])
  ++ (if opts.show_url ∧ detail.url ≠ "" then ["    See: " ++ detail.url] else [])

/-- Modelled from the spec's Text Renderer contract: the report — the
header first, then one block per record in input order, blocks separated
from the header and from each other by one blank line. -/
def specReport (error : ValidationError) (opts : FormatOptions) : String :=
  pyJoin "\n\n"
    (specHeader error :: (explain error).map (fun d => pyJoin "\n" (specBlock d opts)))

/-! ## Proof infrastructure -/

theorem foldl_join_acc (sep : String) (l : List String) :
    ∀ a : String, l.foldl (fun acc y => acc ++ sep ++ y) a = a ++ joinSep sep l := by
  induction l with
  | nil => intro a; simp [joinSep]
  | cons y t ih =>
      intro a
      simp only [List.foldl_cons, joinSep]
      rw [ih, String.append_assoc, String.append_assoc, String.append_assoc]

theorem pyJoin_cons (sep x : String) (l : List String) :
    pyJoin sep (x :: l) = x ++ joinSep sep l := by
  simp [pyJoin, foldl_join_acc]

theorem joinSep_append (sep : String) (l₁ l₂ : List String) :
    joinSep sep (l₁ ++ l₂) = joinSep sep l₁ ++ joinSep sep l₂ := by
  induction l₁ with
  | nil => simp [joinSep]
  | cons y t ih => simp [joinSep, ih, String.append_assoc]

theorem formatLocAux_eq_tokens (locs : List LocSeg) :
    ∀ parts : List String,
      formatLocAux parts locs = parts ++ locTokensAux parts.isEmpty locs := by
  induction locs with
  | nil => intro parts; simp [formatLocAux, locTokensAux]
  | cons seg rest ih =>
      intro parts
      simp only [formatLocAux]
      rw [ih]
      cases seg with
      | int n =>
          cases parts <;>
            simp [locTokensAux, locToken, List.isEmpty, List.append_assoc]
      | str s =>
          by_cases hall : s = "__all__" <;> cases parts <;>
            simp [locTokensAux, locToken, hall, List.isEmpty, List.append_assoc]

theorem locToken_tail_claim (s : Seg) (first : Bool) (h : s ≠ Seg.name "__all__") :
    locToken first (segToLoc s) = claimToken first s := by
  cases s with
  | name str =>
      have hs : str ≠ "__all__" := by
        intro hc; exact h (by rw [hc])
      simp [segToLoc, locToken, claimToken, hs]
  | index n => rfl
  | wildcard => rfl

theorem joinSep_tokens_claim (segs : List Seg)
    (h : ∀ s ∈ segs, s ≠ Seg.name "__all__") :
    joinSep "" (locTokensAux false (segs.map segToLoc)) = claimRenderAux false segs := by
  induction segs with
  | nil => rfl
  | cons s t ih =>
      have hs : s ≠ Seg.name "__all__" := h s (List.mem_cons_self s t)
      have ht : ∀ x ∈ t, x ≠ Seg.name "__all__" := fun x hx => h x (List.mem_cons_of_mem s hx)
      simp only [List.map_cons, locTokensAux, joinSep, claimRenderAux]
      rw [ih ht, locToken_tail_claim s false hs, String.empty_append]

/-- C1: on every sequence of field names (none spelled like the wildcard
marker), non-negative indices, and wildcard markers, `_format_loc` renders
exactly the specification's Path Formatter string: `"<root>"` when empty,
otherwise the left-to-right concatenation where an index `i` contributes
`"[i]"`, a wildcard contributes `"[*]"`, and a name contributes the bare
name first and `"." ++ name` later. -/
theorem c1_path_formatter (segs : List Seg)
    (h : ∀ s ∈ segs, s ≠ Seg.name "__all__") :
    format_loc (segs.map segToLoc) = claimFormat segs := by
  cases segs with
  | nil => rfl
  | cons s t =>
      have hs : s ≠ Seg.name "__all__" := h s (List.mem_cons_self s t)
      have ht : ∀ x ∈ t, x ≠ Seg.name "__all__" := fun x hx => h x (List.mem_cons_of_mem s hx)
      have hne : (s :: t).map segToLoc ≠ [] := by simp
      rw [format_loc, if_neg hne, formatLocAux_eq_tokens, claimFormat,
        if_neg (by simp : ¬s :: t = [])]
      simp only [List.nil_append, List.isEmpty_nil, List.map_cons, locTokensAux,
        claimRenderAux]
      rw [pyJoin_cons, joinSep_tokens_claim t ht, locToken_tail_claim s true hs]

/-- C1 witness: the mixed path `("a", 0, "b", 1, "c")` renders as
`"a[0].b[1].c"`, by the general theorem. -/
theorem c1_path_formatter_witness :
    format_loc ([Seg.name "a", Seg.index 0, Seg.name "b", Seg.index 1,
      Seg.name "c"].map segToLoc) = "a[0].b[1].c" := by
  rw [c1_path_formatter _ (by decide)]
  decide

theorem locTokensAux_wildcard (loc : List LocSeg) :
    ∀ (first : Bool) (i : Nat), loc[i]? = some (LocSeg.str "__all__") →
      (locTokensAux first loc)[i]? = some "[*]" := by
  induction loc with
  | nil => intro first i hi; simp at hi
  | cons seg rest ih =>
      intro first i hi
      cases i with
      | zero =>
          simp only [List.getElem?_cons_zero, Option.some.injEq] at hi
          subst hi
          simp [locTokensAux, locToken]
      | succ j =>
          simp only [List.getElem?_cons_succ] at hi
          simpa [locTokensAux] using ih false j hi

/-- C10: the wildcard is recognized purely by string equality with
`"__all__"`, before the name branch — every location segment equal to
`"__all__"` contributes exactly the token `"[*]"` (no dot separator), in
any position including first; hence the rendered examples
`("a", "__all__", "b") = "a[*].b"` and `("__all__") = "[*]"`, and a field
genuinely named `"__all__"` is indistinguishable from the wildcard. -/
theorem c10_wildcard_by_string_equality :
    (∀ (loc : List LocSeg) (i : Nat), loc[i]? = some (LocSeg.str "__all__") →
      (formatLocAux [] loc)[i]? = some "[*]")
    ∧ format_loc [LocSeg.str "a", LocSeg.str "__all__", LocSeg.str "b"] = "a[*].b"
    ∧ format_loc [LocSeg.str "__all__"] = "[*]" := by
  refine ⟨fun loc i hi => ?_, by decide, by decide⟩
  rw [formatLocAux_eq_tokens, List.nil_append, List.isEmpty_nil]
  exact locTokensAux_wildcard loc true i hi

/-- C10 witness: a wildcard in second position contributes the token
`"[*]"`, by the general statement. -/
theorem c10_wildcard_witness :
    (formatLocAux [] [LocSeg.str "x", LocSeg.str "__all__"])[1]? = some "[*]" :=
  c10_wildcard_by_string_equality.1 [LocSeg.str "x", LocSeg.str "__all__"] 1 (by decide)

/-- C5 counterexample: with `input_max_length = 2` and a representation of
length 3, the truncated result is `"ab..."` of length 5 — not of length 2 —
because Python's `r[: 2 - 3]` is a negative slice, not "the first
`input_max_length - 3` characters". -/
theorem c5_truncation_counterexample :
    (("abc" : String).data.length : Int) > 2
    ∧ truncateStr "abc" 2 = "ab..."
    ∧ (truncateStr "abc" 2).data.length ≠ 2 := by
  refine ⟨by decide, by decide, by decide⟩

/-- C5 (amended): a representation within `input_max_length` is returned
unmodified for every limit; when the representation exceeds the limit AND
`input_max_length ≥ 3`, the result is the first `input_max_length - 3`
characters followed by `"..."` and its length is exactly
`input_max_length`. -/
theorem c5_truncation (r : String) (m : Int) :
    ((r.data.length : Int) ≤ m → truncateStr r m = r)
    ∧ (3 ≤ m → m < (r.data.length : Int) →
        truncateStr r m = String.mk (r.data.take (m - 3).toNat) ++ "..."
        ∧ ((truncateStr r m).data.length : Int) = m) := by
  constructor
  · intro hle
    unfold truncateStr
    rw [if_pos hle]
  · intro h3 hgt
    have hnle : ¬(r.data.length : Int) ≤ m := by omega
    have hpos : (0 : Int) ≤ m - 3 := by omega
    have heq : truncateStr r m = String.mk (r.data.take (m - 3).toNat) ++ "..." := by
      unfold truncateStr pySliceTo
      rw [if_neg hnle, if_pos hpos]
    refine ⟨heq, ?_⟩
    rw [heq]
    have hdata : (String.mk (r.data.take (m - 3).toNat) ++ "...").data
        = r.data.take (m - 3).toNat ++ ("..." : String).data :=
      String.data_append _ _
    rw [hdata]
    have htake : (r.data.take (m - 3).toNat).length = (m - 3).toNat := by
      rw [List.length_take]
      omega
    simp only [List.length_append, htake]
    have : (("..." : String).data).length = 3 := by decide
    rw [this]
    omega

/-- C5 witness: at limit 4, the six-character representation `"abcdef"`
truncates to its first character followed by `"..."`, with length exactly
4. -/
theorem c5_truncation_witness :
    truncateStr "abcdef" 4 = String.mk (("abcdef" : String).data.take ((4 : Int) - 3).toNat) ++ "..."
    ∧ (((truncateStr "abcdef" 4).data.length : Int)) = 4 :=
  (c5_truncation "abcdef" 4).2 (by decide) (by decide)

/-- C3 counterexample: a raw record whose `input` key is present holding
null.  The input was present on the raw record, yet `to_dict` omits
`input_value`, because `explain` defaults the key with `.get("input")` and
`to_dict` tests `is not None` — a present null is indistinguishable from
absence. -/
theorem c3_to_dict_counterexample :
    (RawError.mk [] "m" "t" (some PyValue.none) Option.none Option.none).input ≠ Option.none
    ∧ "input_value" ∉
        ((normalizeOne
          (RawError.mk [] "m" "t" (some PyValue.none) Option.none Option.none)).to_dict).map
          Prod.fst := by
  refine ⟨by decide, by decide⟩

/-- C3 (amended): `to_dict` always contains `path`, `message`,
`error_type`; it contains `input_value` exactly when the normalized input
value is non-null (present-but-falsy values such as `0`, `""`, `False` are
included; a present null is omitted exactly like absence); it contains
`context` / `url` exactly when they are a nonempty mapping / nonempty
string; and a record with `input_value = 0` and `error_type ≠ "missing"`
carries `"input_value": 0`. -/
theorem c3_to_dict (d : ErrorDetail) :
    ("path" ∈ d.to_dict.map Prod.fst
      ∧ "message" ∈ d.to_dict.map Prod.fst
      ∧ "error_type" ∈ d.to_dict.map Prod.fst)
    ∧ ("input_value" ∈ d.to_dict.map Prod.fst ↔ d.input_value ≠ PyValue.none)
    ∧ ("context" ∈ d.to_dict.map Prod.fst ↔ d.context ≠ [])
    ∧ ("url" ∈ d.to_dict.map Prod.fst ↔ d.url ≠ "")
    ∧ (d.input_value = PyValue.int 0 ∧ d.error_type ≠ "missing" →
        ("input_value", DictVal.v (PyValue.int 0)) ∈ d.to_dict) := by
  by_cases hin : d.input_value = PyValue.none <;>
    by_cases hctx : d.context = [] <;>
      by_cases hurl : d.url = "" <;>
        simp [ErrorDetail.to_dict, hin, hctx, hurl]
  all_goals exact fun h _ => h.symm

/-- C3 witness: the record of the spec's falsy-but-present scenario —
`input_value = 0`, `error_type = "value_error"` — has `"input_value": 0`
in its dict conversion. -/
theorem c3_to_dict_witness :
    ("input_value", DictVal.v (PyValue.int 0)) ∈
      (ErrorDetail.mk "count" "Value error" "value_error" (PyValue.int 0) [] "").to_dict :=
  (c3_to_dict (ErrorDetail.mk "count" "Value error" "value_error" (PyValue.int 0) []
    "")).2.2.2.2 ⟨rfl, by decide⟩

/-- C8: `explain` is a 1:1 order-preserving map — one output record per raw
record, same order, with pointwise `error_type = type`, `path` computed by
the path formatter on that record's location, and absent raw fields
defaulted (null marker for input, empty mapping for context, empty string
for url); no reordering, deduplication, or filtering. -/
theorem c8_explain_normalizer (error : ValidationError) :
    (explain error).length = error.errors.length
    ∧ explain error = error.errors.map normalizeOne
    ∧ (∀ i : Nat, ((explain error)[i]?).map ErrorDetail.error_type
        = (error.errors[i]?).map RawError.type)
    ∧ (∀ i : Nat, ((explain error)[i]?).map ErrorDetail.path
        = (error.errors[i]?).map (fun raw => format_loc raw.loc))
    ∧ (∀ i : Nat, ((explain error)[i]?).map ErrorDetail.input_value
        = (error.errors[i]?).map (fun raw => raw.input.getD PyValue.none))
    ∧ (∀ i : Nat, ((explain error)[i]?).map ErrorDetail.context
        = (error.errors[i]?).map (fun raw => raw.ctx.getD []))
    ∧ (∀ i : Nat, ((explain error)[i]?).map ErrorDetail.url
        = (error.errors[i]?).map (fun raw => raw.url.getD "")) := by
  refine ⟨by simp [explain], rfl, fun i => ?_, fun i => ?_, fun i => ?_, fun i => ?_,
    fun i => ?_⟩ <;>
    · simp only [explain, List.getElem?_map, Option.map_map]
      cases error.errors[i]? <;> rfl

/-- C7: `filter_errors` returns the order-preserving subsequence of records
satisfying all supplied criteria (AND semantics): exact `error_type` match
when supplied, pattern found anywhere within the path when supplied, and an
equal sequence when no criterion is supplied. -/
theorem c7_filter_errors (errors : List ErrorDetail) (errorType : Option String)
    (pathPattern : Option CompiledPattern) :
    filter_errors errors errorType pathPattern
      = errors.filter (fun e => typeOk errorType e && pathOk pathPattern e)
    ∧ (filter_errors errors errorType pathPattern).Sublist errors
    ∧ filter_errors errors Option.none Option.none = errors := by
  have heq : filter_errors errors errorType pathPattern
      = errors.filter (fun e => typeOk errorType e && pathOk pathPattern e) := by
    cases errorType with
    | none =>
        cases pathPattern with
        | none => simp [filter_errors, typeOk, pathOk]
        | some p => simp [filter_errors, typeOk, pathOk]
    | some t =>
        cases pathPattern with
        | none => simp [filter_errors, typeOk, pathOk]
        | some p =>
            simp only [filter_errors, typeOk, pathOk]
            rw [List.filter_filter]
            congr 1
            funext e
            exact Bool.and_comm _ _
  refine ⟨heq, ?_, ?_⟩
  · rw [heq]; exact List.filter_sublist errors
  · simp [filter_errors]

theorem countStep_map_length (g : List (String × List ErrorDetail)) (e : ErrorDetail) :
    countStep (g.map (fun kv => (kv.1, kv.2.length))) e
      = (groupStep g e).map (fun kv => (kv.1, kv.2.length)) := by
  simp only [countStep, groupStep]
  have hany : (g.map (fun kv => (kv.1, kv.2.length))).any
        (fun kv => kv.1 = pathStem e.path)
      = g.any (fun kv => kv.1 = pathStem e.path) := by
    induction g with
    | nil => rfl
    | cons a t ih => simp only [List.map_cons, List.any_cons, ih]
  rw [hany]
  by_cases h : g.any (fun kv => kv.1 = pathStem e.path) = true
  · rw [if_pos h, if_pos h, List.map_map, List.map_map]
    congr 1
    funext kv
    by_cases hk : kv.1 = pathStem e.path <;> simp [hk, Function.comp]
  · rw [if_neg h, if_neg h]
    simp

theorem count_eq_group_lengths (errors : List ErrorDetail) :
    ∀ g : List (String × List ErrorDetail),
      errors.foldl countStep (g.map (fun kv => (kv.1, kv.2.length)))
        = (errors.foldl groupStep g).map (fun kv => (kv.1, kv.2.length)) := by
  induction errors with
  | nil => intro g; rfl
  | cons e rest ih =>
      intro g
      simp only [List.foldl_cons]
      rw [countStep_map_length, ih]

theorem lookup_map_length (l : List (String × List ErrorDetail)) (k : String) :
    (l.map (fun kv => (kv.1, kv.2.length))).lookup k
      = (l.lookup k).map List.length := by
  induction l with
  | nil => rfl
  | cons a t ih =>
      simp only [List.map_cons, List.lookup]
      by_cases h : k == a.1 <;> simp [h, ih]

/-- C6: `group_errors` and `count_errors` share the key rule (the portion
of the path before the first `.` or `[`) and agree — same keys in the same
order, and for every key the count equals the length of the grouped list;
the empty sequence yields empty mappings from both. -/
theorem c6_group_count_agree (errors : List ErrorDetail) :
    count_errors errors = (group_errors errors).map (fun kv => (kv.1, kv.2.length))
    ∧ (count_errors errors).map Prod.fst = (group_errors errors).map Prod.fst
    ∧ (∀ k : String, (count_errors errors).lookup k
        = ((group_errors errors).lookup k).map List.length)
    ∧ group_errors [] = [] ∧ count_errors [] = [] := by
  have hmain : count_errors errors
      = (group_errors errors).map (fun kv => (kv.1, kv.2.length)) := by
    have h := count_eq_group_lengths errors []
    simpa [count_errors, group_errors] using h
  refine ⟨hmain, ?_, ?_, rfl, rfl⟩
  · rw [hmain, List.map_map]
    rfl
  · intro k
    rw [hmain, lookup_map_length]

theorem foldl_append_flatten {α β : Type} (g : α → List β) (l : List α) :
    ∀ acc : List β, l.foldl (fun a x => a ++ g x) acc = acc ++ (l.map g).flatten := by
  induction l with
  | nil => intro acc; simp
  | cons x t ih =>
      intro acc
      simp only [List.foldl_cons, List.map_cons, List.flatten_cons]
      rw [ih, List.append_assoc]

theorem format_errors_eq (error : ValidationError) (opts : FormatOptions) :
    format_errors error opts
      = specHeader error
        ++ joinSep "\n"
            (((explain error).map (fun d => ["", format_error_detail d opts])).flatten) := by
  show pyJoin "\n"
      ((explain error).foldl (fun acc detail => acc ++ ["", format_error_detail detail opts])
        [_]) = _
  rw [foldl_append_flatten (fun d => ["", format_error_detail d opts]) (explain error),
    List.singleton_append, pyJoin_cons]
  rfl

theorem joinSep_single_block (sep x : String) (rest : List String) :
    joinSep sep ["", pyJoin sep (x :: rest)] = joinSep sep ("" :: x :: rest) := by
  rw [pyJoin_cons]
  simp only [joinSep]
  simp [String.append_assoc, String.append_empty]

theorem detailLines_eq_specBlock (d : ErrorDetail) (opts : FormatOptions) :
    detailLines d opts = specBlock d opts := by
  have hg : ("    Got: (missing)" : String) = "    Got: " ++ "(missing)" := by decide
  by_cases hset : opts.show_error_type <;>
    by_cases hsi : opts.show_input <;>
      by_cases hm : d.error_type = "missing" <;>
        simp [detailLines, specBlock, hset, hsi, hm, hg, String.append_assoc,
          String.append_empty]

theorem detailLines_ne_nil (d : ErrorDetail) (opts : FormatOptions) :
    ∃ x rest, detailLines d opts = x :: rest :=
  ⟨_, _, rfl⟩

theorem plain_tail_eq_c4_tail (opts : FormatOptions) (details : List ErrorDetail) :
    joinSep "\n" ((details.map (fun d => ["", format_error_detail d opts])).flatten)
      = joinSep "\n\n" (details.map (fun d => pyJoin "\n" (specBlock d opts))) := by
  induction details with
  | nil => rfl
  | cons d t ih =>
      simp only [List.map_cons, List.flatten_cons]
      rw [joinSep_append, ih]
      obtain ⟨x, rest, hx⟩ := detailLines_ne_nil d opts
      have hblock : format_error_detail d opts = pyJoin "\n" (specBlock d opts) := by
        rw [format_error_detail, detailLines_eq_specBlock]
      have h2 : ("\n\n" : String) = "\n" ++ "\n" := by decide
      simp only [joinSep, hblock]
      simp only [String.append_assoc, String.append_empty]
      have hsep : ∀ z : String, ("\n\n" : String) ++ z = "\n" ++ ("\n" ++ z) := by
        intro z
        rw [h2, String.append_assoc]
      rw [hsep]

/-- C4: for every failure and configuration, `format_errors` produces
exactly the specification's report — the header
`"Validation failed for <subject> with <N> <error|errors>"` (singular iff
`N = 1`), then one block per record in input order separated by one blank
line, each block consisting of the two-space-indented path, the four-space-
indented message (with `" [<error_type>]"` iff `show_error_type`), the
`"Got: "` line iff `show_input` (literal `"(missing)"` iff the error type
is `"missing"`, else the possibly-truncated representation), and the
`"See: <url>"` line iff `show_url` and the url is nonempty. -/
theorem c4_text_renderer (error : ValidationError) (opts : FormatOptions) :
    format_errors error opts = specReport error opts := by
  rw [format_errors_eq, specReport, pyJoin_cons, plain_tail_eq_c4_tail]

theorem plain_tail_eq_lines_tail (opts : FormatOptions) (details : List ErrorDetail) :
    joinSep "\n" ((details.map (fun d => ["", format_error_detail d opts])).flatten)
      = joinSep "\n" ((details.map (fun d => "" :: detailLines d opts)).flatten) := by
  induction details with
  | nil => rfl
  | cons d t ih =>
      simp only [List.map_cons, List.flatten_cons]
      rw [joinSep_append, joinSep_append, ih]
      congr 1
      obtain ⟨x, rest, hx⟩ := detailLines_ne_nil d opts
      rw [format_error_detail, hx, joinSep_single_block]

/-- C9: the renderers are total (every embedded operation is a total
function) and with all display flags off the output still consists of
exactly the header plus, per record, the path line and the message line —
formatting one record yields exactly those two lines. -/
theorem c9_renderers_total (detail : ErrorDetail) (error : ValidationError) (m : Int) :
    format_error_detail detail (FormatOptions.mk false false false m)
      = "  " ++ detail.path ++ "\n" ++ ("    " ++ detail.message)
    ∧ format_errors error (FormatOptions.mk false false false m)
      = specHeader error
        ++ joinSep "\n"
            (((explain error).map
              (fun d => ["", "  " ++ d.path, "    " ++ d.message])).flatten) := by
  have hlines : ∀ d : ErrorDetail,
      detailLines d (FormatOptions.mk false false false m)
        = ["  " ++ d.path, "    " ++ d.message] := by
    intro d
    simp [detailLines]
  constructor
  · rw [format_error_detail, hlines]
    rfl
  · rw [format_errors_eq, plain_tail_eq_lines_tail]
    have hmap : (explain error).map
          (fun d => "" :: detailLines d (FormatOptions.mk false false false m))
        = (explain error).map (fun d => ["", "  " ++ d.path, "    " ++ d.message]) := by
      apply List.map_congr_left
      intro d _
      rw [hlines]
    rw [hmap]

theorem strip_richDetailLines (d : ErrorDetail) (opts : FormatOptions) :
    (richDetailLines d opts).map stripStyles = "" :: detailLines d opts := by
  have hsb : (" [" : String) = " " ++ "[" := by decide
  have hg : ("    Got: " : String) ++ "(missing)" = "    Got: (missing)" := by decide
  by_cases hset : opts.show_error_type <;>
    by_cases hsi : opts.show_input <;>
      by_cases hm : d.error_type = "missing" <;>
        by_cases hu : opts.show_url ∧ d.url ≠ "" <;>
          simp [richDetailLines, detailLines, stripStyles, hset, hsi, hm, hu, hsb, hg,
            String.append_assoc, String.append_empty, String.empty_append]
  all_goals rw [hsb, String.append_assoc]

theorem strip_rich_header (t : String) (N : Nat) :
    stripStyles [("Validation failed", "bold red"),
      (" for " ++ t ++ " with " ++ toString N ++ " "
        ++ (if N = 1 then "error" else "errors"), "")]
      = "Validation failed for " ++ t ++ " with " ++ toString N ++ " "
        ++ (if N = 1 then "error" else "errors") := by
  have hv : ("Validation failed for " : String) = "Validation failed" ++ " for " := by
    decide
  simp only [stripStyles, List.foldl_cons, List.foldl_nil, String.empty_append]
  simp only [String.append_assoc]
  rw [hv, String.append_assoc]

/-- C2: for every failure and configuration, the styled renderer's printed
lines, stripped of styling and joined with newlines, are character for
character the plain-text report of `format_errors`. -/
theorem c2_rich_matches_plain (error : ValidationError) (opts : FormatOptions) :
    pyJoin "\n" ((format_errors_rich error opts).map stripStyles)
      = format_errors error opts := by
  rw [format_errors_eq, plain_tail_eq_lines_tail]
  simp only [format_errors_rich, List.map_cons]
  rw [pyJoin_cons, List.map_flatten, List.map_map]
  have hfun : (List.map stripStyles ∘ fun detail => richDetailLines detail opts)
      = fun d => "" :: detailLines d opts := by
    funext d
    exact strip_richDetailLines d opts
  rw [hfun, strip_rich_header]
  rfl
